import Mathlib

/-!
Verification of the BioLogreen Vue SDK's capture coordinator
(`src/useBioLogreen.ts`) and API client (`src/apiClient.ts`).

The coordinator is shallowly embedded as a state machine. A `State`
mirrors the composable's reactive refs and internal mutable variables.
The JavaScript event loop runs each continuation atomically, so each
atomic segment of the source becomes one transition:

* `runDetection` — the continuation of a poll tick after
  `faceapi.detectAllFaces` resolves. The environment supplies the
  detection count, whether the video ref is non-null, and the result of
  `canvas.toDataURL(...).split(',')[1]`. Because `_capturePhoto()` is an
  async function invoked without `await`, its body up to the first
  `await` (the API call) runs synchronously inside the same tick; the
  in-flight HTTP send it starts is recorded in `inFlight`.
* `apiRespondStep` — the continuation that runs when the HTTP call of an
  in-flight send settles (the `completer.resolve`/`catch`/`finally` part
  of `_capturePhoto`).
* `loginWithFace` / `signupWithFace` — arm a capture request. Promises
  are modelled by numeric ids drawn from a counter `nextId`; settling a
  promise is an emitted `Event`.
* `startBegin` / `startFinish` — the synchronous prefix of `start()`
  (null-ref guard, `isInitializing := true`) and its continuation once
  model loading and `getUserMedia` have succeeded or failed.
* `stop` — the (fully synchronous) `stop()` function.

The HTTP client of `apiClient.ts` is split into the request it builds
(`post`, `loginWithFaceApi`, `signupWithFaceApi` produce a `Request`)
and the handling of the response (`postResult`). JavaScript truthiness
of `responseData.detail || '...'` is modelled on `Option String`: the
field is falsy when absent or the empty string.
-/

namespace BioLogreen

/-- `'login' | 'signup'` capture mode. -/
inductive Mode where
  | login
  | signup
deriving DecidableEq, Repr

/-- An opaque `Record<string, any>` bag of custom fields (values kept
abstract as strings; the coordinator never inspects them). -/
abbrev CustomFields : Type := List (String × String)

/-- The parsed JSON success response of the Auth Service
(`FaceAuthResponse` in `types.ts`). -/
structure FaceAuthResponse where
  user_id : Int
  is_new_user : Bool
  custom_fields : Option CustomFields
deriving DecidableEq, Repr

/-- The JSON payload sent by the API client: `{ image_base64 }`, with
`custom_fields` present exactly when the key was added. -/
structure Payload where
  image_base64 : String
  custom_fields : Option CustomFields
deriving DecidableEq, Repr

/-- The HTTP request built by `fetch` inside `post` in `apiClient.ts`. -/
structure Request where
  url : String
  method : String
  contentType : String
  xApiKey : String
  body : Payload
deriving DecidableEq, Repr

/-- An HTTP response as seen by `post`: `ok` is `response.ok`, `detail`
is the `detail` field of the parsed JSON body (`none` when absent, and
the empty string is a present-but-falsy value), `result` is the parsed
body read back verbatim as `FaceAuthResponse` on the success path. -/
structure HttpResponse where
  ok : Bool
  detail : Option String
  result : FaceAuthResponse
deriving DecidableEq, Repr

/-- `post` in `apiClient.ts`, request-building half:
`fetch(baseURL + endpoint, { method: 'POST', headers: { 'Content-Type':
'application/json', 'X-API-KEY': apiKey }, body: JSON.stringify(payload) })`. -/
def post (endpoint : String) (payload : Payload) (apiKey : String)
    (baseURL : String) : Request :=
  { url := baseURL ++ endpoint
    method := "POST"
    contentType := "application/json"
    xApiKey := apiKey
    body := payload }

/-- `post` in `apiClient.ts`, response-handling half: on `!response.ok`
throw `new Error(responseData.detail || 'An unknown API error occurred.')`,
else return `responseData as T`. The JS `||` falls through on falsy
values, i.e. here on an absent or empty `detail`. -/
def postResult (resp : HttpResponse) : Except String FaceAuthResponse :=
  if !resp.ok then
    Except.error
      (match resp.detail with
        | some d => if d = "" then "An unknown API error occurred." else d
        | none => "An unknown API error occurred.")
  else
    Except.ok resp.result

/-- `signupWithFaceApi` in `apiClient.ts`: payload `{ image_base64 }`,
plus `payload.custom_fields = customFields` when `customFields` is
truthy (an object; `undefined` is the absent case), POSTed to
`/auth/signup-face`. -/
def signupWithFaceApi (apiKey : String) (baseURL : String)
    (imageBase64 : String) (customFields : Option CustomFields) : Request :=
  let payload : Payload :=
    { image_base64 := imageBase64
      custom_fields :=
        match customFields with
        | some cf => some cf
        | none => none }
  post "/auth/signup-face" payload apiKey baseURL

/-- `loginWithFaceApi` in `apiClient.ts`: payload `{ image_base64 }`
POSTed to `/auth/login-face`. -/
def loginWithFaceApi (apiKey : String) (baseURL : String)
    (imageBase64 : String) : Request :=
  post "/auth/login-face" { image_base64 := imageBase64, custom_fields := none }
    apiKey baseURL

/-- The resolved configuration of `useBioLogreen`: `options.apiKey` and
`options.baseURL ?? 'https://api.biologreen.com/v1'`. -/
structure Config where
  apiKey : String
  baseURL : String
deriving DecidableEq, Repr

/-- `options.baseURL ?? 'https://api.biologreen.com/v1'`. -/
def resolveBaseURL (optBaseURL : Option String) : String :=
  optBaseURL.getD "https://api.biologreen.com/v1"

/-- Settling a caller's promise: each promise created by
`loginWithFace`/`signupWithFace` is identified by a numeric id. -/
inductive Event where
  | resolve (id : Nat) (response : FaceAuthResponse)
  | reject (id : Nat) (msg : String)
deriving DecidableEq, Repr

/-- The promise id an event settles. -/
def Event.id : Event → Nat
  | .resolve i _ => i
  | .reject i _ => i

/-- The state of one `useBioLogreen` instance: the four reactive refs,
the internal `let`-variables, the in-flight HTTP send started by
`_capturePhoto` (promise id and built request), and the fresh-id counter
for promises. `stream`, `detectionInterval` and `videoSrc` model whether
the media stream is held, the poll interval is registered, and the
stream is attached to the video element's `srcObject`. -/
structure State where
  isLoading : Bool
  isInitializing : Bool
  faceDetected : Bool
  error : Option String
  stream : Bool
  detectionInterval : Bool
  videoSrc : Bool
  captureCompleter : Option Nat
  captureMode : Mode
  signupCustomFields : Option CustomFields
  inFlight : List (Nat × Request)
  nextId : Nat
deriving DecidableEq, Repr

/-- The state right after `useBioLogreen(options)` returns: refs
initialised to `false`/`null`, internal variables to `null`/`'login'`/
`undefined`. -/
def initState : State :=
  { isLoading := false
    isInitializing := false
    faceDetected := false
    error := none
    stream := false
    detectionInterval := false
    videoSrc := false
    captureCompleter := none
    captureMode := Mode.login
    signupCustomFields := none
    inFlight := []
    nextId := 0 }

/-- `_capturePhoto` in `useBioLogreen.ts`, up to its first `await`.
`videoRefPresent` is the `options.videoRef.value` null-check; `encode`
is `canvas.toDataURL('image/jpeg').split(',')[1]` (`none` when the
split has no second component). An empty or missing `imageBase64` is
falsy and throws `"Failed to capture image from video stream."`, which
the `catch` turns into `error.value := e.message` and a rejection, and
the `finally` clears `isLoading` — all before any suspension. Otherwise
the API call is started and recorded in `inFlight`; its settlement is a
separate `apiRespondStep` transition. -/
def capturePhoto (cfg : Config) (videoRefPresent : Bool)
    (encode : Option String) (s : State) : State × List Event :=
  if !videoRefPresent || s.captureCompleter.isNone then (s, [])
  else
    match s.captureCompleter with
    | none => (s, [])
    | some completer =>
      let s1 := { s with isLoading := true, captureCompleter := none }
      match encode with
      | some img =>
        if img = "" then
          let msg := "Failed to capture image from video stream."
          ({ s1 with error := some msg, isLoading := false },
            [Event.reject completer msg])
        else
          let req :=
            if s1.captureMode = Mode.login then
              loginWithFaceApi cfg.apiKey cfg.baseURL img
            else
              signupWithFaceApi cfg.apiKey cfg.baseURL img s1.signupCustomFields
          ({ s1 with inFlight := s1.inFlight ++ [(completer, req)] }, [])
      | none =>
        let msg := "Failed to capture image from video stream."
        ({ s1 with error := some msg, isLoading := false },
          [Event.reject completer msg])

/-- `runDetection` in `useBioLogreen.ts`: the poll-tick continuation
once `detectAllFaces` has resolved with `faces` detections. Returns
early when the video ref is null; otherwise updates `faceDetected` and,
when a capture is armed, a face is present and `isLoading` is false,
invokes `_capturePhoto()` (whose pre-`await` part runs synchronously in
this same tick). -/
def runDetection (cfg : Config) (videoRefPresent : Bool) (faces : Nat)
    (encode : Option String) (s : State) : State × List Event :=
  if !videoRefPresent then (s, [])
  else
    let faceIsPresent := decide (0 < faces)
    let s1 := { s with faceDetected := faceIsPresent }
    if s1.captureCompleter.isSome && faceIsPresent && !s1.isLoading then
      capturePhoto cfg videoRefPresent encode s1
    else (s1, [])

/-- The tail of `_capturePhoto` after `await loginWithFaceApi`/
`signupWithFaceApi` settles: on success `completer.resolve(response)`;
on an API error `error.value := e.message || '...'` and
`completer.reject(e)`; in both cases the `finally` sets
`isLoading := false`. A response can only arrive for an in-flight send. -/
def apiRespondStep (resp : HttpResponse) (s : State) : State × List Event :=
  match s.inFlight with
  | [] => (s, [])
  | (completer, _req) :: rest =>
    match postResult resp with
    | Except.ok r =>
      ({ s with inFlight := rest, isLoading := false },
        [Event.resolve completer r])
    | Except.error msg =>
      let errText :=
        if msg = "" then "An unexpected error occurred during capture." else msg
      ({ s with inFlight := rest, isLoading := false, error := some errText },
        [Event.reject completer msg])

/-- `loginWithFace` in `useBioLogreen.ts`: set mode `'login'`, clear
`signupCustomFields`, and arm a fresh promise's completer. Returns the
new promise's id. -/
def loginWithFace (s : State) : State × Nat :=
  ({ s with captureMode := Mode.login
            signupCustomFields := none
            captureCompleter := some s.nextId
            nextId := s.nextId + 1 }, s.nextId)

/-- `signupWithFace` in `useBioLogreen.ts`: set mode `'signup'`, store
`opts?.customFields`, and arm a fresh promise's completer. -/
def signupWithFace (fields : Option CustomFields) (s : State) : State × Nat :=
  ({ s with captureMode := Mode.signup
            signupCustomFields := fields
            captureCompleter := some s.nextId
            nextId := s.nextId + 1 }, s.nextId)

/-- `stop` in `useBioLogreen.ts`: clear the interval if set, stop the
stream's tracks if held, detach `srcObject` if the video ref is
non-null, and reset `faceDetected`. -/
def stop (videoRefPresent : Bool) (s : State) : State :=
  let s1 := if s.detectionInterval then { s with detectionInterval := false } else s
  let s2 := if s1.stream then { s1 with stream := false } else s1
  let s3 := if videoRefPresent then { s2 with videoSrc := false } else s2
  { s3 with faceDetected := false }

/-- The error thrown by `loadModels` when
`faceapi.nets.tinyFaceDetector.loadFromUri` fails with `e`. -/
def loadModelsErr (e : String) : String :=
  "Failed to load face detection models. Please check the modelPath. Error: " ++ e

/-- The outcome of the awaited setup work inside `start`: model loading
failed, `getUserMedia` failed, or both succeeded. The strings are the
`message` of the thrown error. -/
inductive StartEnv where
  | modelLoadFail (e : String)
  | cameraFail (e : String)
  | ok
deriving DecidableEq, Repr

/-- The synchronous prefix of `start` in `useBioLogreen.ts`: if the
video ref is null, set the error and return; otherwise set
`isInitializing := true` and clear the error. -/
def startBegin (videoRefPresent : Bool) (s : State) : State :=
  if !videoRefPresent then
    { s with error := some "Video element reference is not available." }
  else
    { s with isInitializing := true, error := none }

/-- The remainder of `start` (only reached when the null-ref guard
passed): on success acquire the stream, attach it to the video element
and register the 200 ms interval; on failure the `catch` sets
`error.value := 'Failed to start camera: ' + e.message` (for a model
load failure, `e` is the error re-thrown by `loadModels`); the `finally`
clears `isInitializing` in every case. -/
def startFinish (env : StartEnv) (s : State) : State :=
  match env with
  | StartEnv.modelLoadFail e =>
    { s with error := some ("Failed to start camera: " ++ loadModelsErr e)
             isInitializing := false }
  | StartEnv.cameraFail e =>
    { s with error := some ("Failed to start camera: " ++ e)
             isInitializing := false }
  | StartEnv.ok =>
    { s with stream := true
             videoSrc := true
             detectionInterval := true
             isInitializing := false }

/-- One atomic event-loop segment, as scheduled by the environment. -/
inductive Action where
  | tick (videoRefPresent : Bool) (faces : Nat) (encode : Option String)
  | apiRespond (resp : HttpResponse)
  | armLogin
  | armSignup (fields : Option CustomFields)
  | stopCall (videoRefPresent : Bool)
  | startA (videoRefPresent : Bool)
  | startB (env : StartEnv)
deriving DecidableEq, Repr

/-- Apply one atomic segment. -/
def step (cfg : Config) (s : State) : Action → State × List Event
  | Action.tick v faces enc => runDetection cfg v faces enc s
  | Action.apiRespond resp => apiRespondStep resp s
  | Action.armLogin => ((loginWithFace s).1, [])
  | Action.armSignup fields => ((signupWithFace fields s).1, [])
  | Action.stopCall v => (stop v s, [])
  | Action.startA v => (startBegin v s, [])
  | Action.startB env => (startFinish env s, [])

/-- Run a sequence of atomic segments, collecting the promise
settlements they emit. -/
def run (cfg : Config) (s : State) : List Action → State × List Event
  | [] => (s, [])
  | a :: rest =>
    let p := step cfg s a
    let q := run cfg p.1 rest
    (q.1, p.2 ++ q.2)

/-- Reachability invariant of the coordinator: the busy flag is set
exactly while a send is in flight, at most one send is in flight, and
every promise id held by the state was drawn from the id counter. -/
def Inv (s : State) : Prop :=
  s.isLoading = !s.inFlight.isEmpty ∧
  s.inFlight.length ≤ 1 ∧
  (∀ p ∈ s.inFlight, p.1 < s.nextId) ∧
  (∀ i, s.captureCompleter = some i → i < s.nextId)

/-- Promise id `i` is dead: it is below the fresh-id counter, it is not
the armed completer, and no in-flight send holds it. A dead id can never
be settled again. -/
def Unreferenced (s : State) (i : Nat) : Prop :=
  s.captureCompleter ≠ some i ∧ (∀ p ∈ s.inFlight, p.1 ≠ i) ∧ i < s.nextId

/-- Whether an action is one of the two arming calls,
`loginWithFace()` or `signupWithFace(...)`. -/
def Action.isArm : Action → Bool
  | Action.armLogin => true
  | Action.armSignup _ => true
  | _ => false

/-- The capture mode an arming action stores. -/
def Action.armMode : Action → Mode
  | Action.armSignup _ => Mode.signup
  | _ => Mode.login

/-- The custom fields an arming action stores (`loginWithFace` clears
them). -/
def Action.armFields : Action → Option CustomFields
  | Action.armSignup f => f
  | _ => none

/-- Modelled from the spec (amended form of the error-message rule): the
message for a non-2xx response is the body's `detail` field when it is
present and non-empty, else the generic text. Stated from the spec's
words, to be compared with `postResult`. -/
def specApiErrorMessage (detail : Option String) : String :=
  match detail with
  | some d => if d = "" then "An unknown API error occurred." else d
  | none => "An unknown API error occurred."

/-- Every in-flight send carries a request built by `loginWithFaceApi`
or `signupWithFaceApi` from the configured key and base URL. -/
def SentReqs (cfg : Config) (s : State) : Prop :=
  ∀ p ∈ s.inFlight, ∃ img,
    p.2 = loginWithFaceApi cfg.apiKey cfg.baseURL img ∨
    ∃ cf, p.2 = signupWithFaceApi cfg.apiKey cfg.baseURL img cf

/-- A sample configuration used to instantiate hypotheses on concrete
inputs. -/
def cfg0 : Config :=
  { apiKey := "k", baseURL := resolveBaseURL none }

/-- A sample successful Auth Service response. -/
def respOk : HttpResponse :=
  { ok := true, detail := none
    result := { user_id := 42, is_new_user := true, custom_fields := none } }

/-- A sample HTTP 400 response whose body carries a `detail` field. -/
def resp400 : HttpResponse :=
  { ok := false, detail := some "duplicate face"
    result := { user_id := 0, is_new_user := false, custom_fields := none } }

/-- An HTTP 400 response whose body carries a present but empty `detail`
field. -/
def resp400empty : HttpResponse :=
  { ok := false, detail := some ""
    result := { user_id := 0, is_new_user := false, custom_fields := none } }

theorem inv_init : Inv initState := by
  simp [Inv, initState]

theorem inv_capturePhoto (cfg : Config) (enc : Option String) (s : State)
    (h : Inv s) (hempty : s.inFlight = []) :
    Inv (capturePhoto cfg true enc s).1 := by
  obtain ⟨h1, h2, h3, h4⟩ := h
  cases hcc : s.captureCompleter with
  | none =>
    simp only [capturePhoto, hcc]
    simp
    exact ⟨h1, h2, h3, h4⟩
  | some c =>
    have hlt := h4 c hcc
    cases enc with
    | none =>
      simp [capturePhoto, hcc, Inv, hempty]
    | some img =>
      by_cases him : img = ""
      · simp [capturePhoto, hcc, him, Inv, hempty]
      · simp [capturePhoto, hcc, him, Inv, hempty, hlt]

theorem inv_runDetection (cfg : Config) (v : Bool) (faces : Nat)
    (enc : Option String) (s : State) (h : Inv s) :
    Inv (runDetection cfg v faces enc s).1 := by
  cases v with
  | false => simpa [runDetection] using h
  | true =>
    obtain ⟨h1, h2, h3, h4⟩ := h
    simp only [runDetection]
    split
    · rename_i hv
      simp at hv
    · split
      · rename_i hguard
        simp only [Bool.and_eq_true, Bool.not_eq_true'] at hguard
        have hload : s.isLoading = false := hguard.2
        have hempty : s.inFlight = [] := by
          cases hfl : s.inFlight with
          | nil => rfl
          | cons p l => rw [hload, hfl] at h1; simp at h1
        exact inv_capturePhoto cfg enc _ ⟨h1, h2, h3, h4⟩ hempty
      · exact ⟨h1, h2, h3, h4⟩

theorem inv_apiRespond (resp : HttpResponse) (s : State) (h : Inv s) :
    Inv (apiRespondStep resp s).1 := by
  obtain ⟨h1, h2, h3, h4⟩ := h
  simp only [apiRespondStep]
  split
  · exact ⟨h1, h2, h3, h4⟩
  · rename_i completer req rest heq
    have hrest : rest = [] := by
      rw [heq] at h2
      simpa using h2
    split
    · exact ⟨by simp [hrest], by simp [hrest], by simp [hrest], h4⟩
    · exact ⟨by simp [hrest], by simp [hrest], by simp [hrest], h4⟩

theorem inv_step (cfg : Config) (s : State) (a : Action) (h : Inv s) :
    Inv (step cfg s a).1 := by
  cases a with
  | tick v faces enc => exact inv_runDetection cfg v faces enc s h
  | apiRespond resp => exact inv_apiRespond resp s h
  | armLogin =>
    obtain ⟨h1, h2, h3, h4⟩ := h
    simp only [step, loginWithFace]
    refine ⟨h1, h2, ?_, ?_⟩
    · intro p hp
      exact Nat.lt_succ_of_lt (h3 p hp)
    · intro i hi
      have hi2 : i = s.nextId := by
        have : some s.nextId = some i := hi
        simpa using this.symm
      subst hi2
      exact Nat.lt_succ_self _
  | armSignup fields =>
    obtain ⟨h1, h2, h3, h4⟩ := h
    simp only [step, signupWithFace]
    refine ⟨h1, h2, ?_, ?_⟩
    · intro p hp
      exact Nat.lt_succ_of_lt (h3 p hp)
    · intro i hi
      have hi2 : i = s.nextId := by
        have : some s.nextId = some i := hi
        simpa using this.symm
      subst hi2
      exact Nat.lt_succ_self _
  | stopCall v =>
    obtain ⟨h1, h2, h3, h4⟩ := h
    simp only [step, stop]
    split <;> split <;> split <;> exact ⟨h1, h2, h3, h4⟩
  | startA v =>
    obtain ⟨h1, h2, h3, h4⟩ := h
    simp only [step, startBegin]
    split <;> exact ⟨h1, h2, h3, h4⟩
  | startB env =>
    obtain ⟨h1, h2, h3, h4⟩ := h
    cases env <;> exact ⟨h1, h2, h3, h4⟩

theorem inv_run (cfg : Config) (acts : List Action) (s : State) (h : Inv s) :
    Inv (run cfg s acts).1 := by
  induction acts generalizing s with
  | nil => exact h
  | cons a rest ih =>
    simp only [run]
    exact ih (step cfg s a).1 (inv_step cfg s a h)

theorem unref_capturePhoto (cfg : Config) (enc : Option String) (s : State)
    (i : Nat) (h : Unreferenced s i) :
    Unreferenced (capturePhoto cfg true enc s).1 i ∧
      ∀ e ∈ (capturePhoto cfg true enc s).2, Event.id e ≠ i := by
  obtain ⟨h1, h2, h3⟩ := h
  cases hcc : s.captureCompleter with
  | none =>
    have hres : capturePhoto cfg true enc s = (s, []) := by
      simp [capturePhoto, hcc]
    rw [hres]
    exact ⟨⟨h1, h2, h3⟩, by simp⟩
  | some c =>
    have hci : c ≠ i := fun hc => h1 (hc ▸ hcc)
    cases enc with
    | none =>
      have hres : capturePhoto cfg true none s =
          ({ s with isLoading := false, captureCompleter := none,
                    error := some "Failed to capture image from video stream." },
            [Event.reject c "Failed to capture image from video stream."]) := by
        simp [capturePhoto, hcc]
      rw [hres]
      refine ⟨⟨by simp, h2, h3⟩, ?_⟩
      intro e he
      simp only [List.mem_singleton] at he
      subst he
      simpa [Event.id] using hci
    | some img =>
      by_cases him : img = ""
      · subst him
        have hres : capturePhoto cfg true (some "") s =
            ({ s with isLoading := false, captureCompleter := none,
                      error := some "Failed to capture image from video stream." },
              [Event.reject c "Failed to capture image from video stream."]) := by
          simp [capturePhoto, hcc]
        rw [hres]
        refine ⟨⟨by simp, h2, h3⟩, ?_⟩
        intro e he
        simp only [List.mem_singleton] at he
        subst he
        simpa [Event.id] using hci
      · have hres : capturePhoto cfg true (some img) s =
            ({ s with isLoading := true, captureCompleter := none,
                      inFlight := s.inFlight ++ [(c,
                        if s.captureMode = Mode.login then
                          loginWithFaceApi cfg.apiKey cfg.baseURL img
                        else
                          signupWithFaceApi cfg.apiKey cfg.baseURL img
                            s.signupCustomFields)] },
              []) := by
          simp [capturePhoto, hcc, him]
        rw [hres]
        refine ⟨⟨by simp, ?_, h3⟩, by simp⟩
        intro p hp
        simp only [List.mem_append, List.mem_singleton] at hp
        cases hp with
        | inl h' => exact h2 p h'
        | inr h' =>
          subst h'
          exact hci

theorem unref_step (cfg : Config) (s : State) (a : Action) (i : Nat)
    (h : Unreferenced s i) :
    Unreferenced (step cfg s a).1 i ∧ ∀ e ∈ (step cfg s a).2, Event.id e ≠ i := by
  obtain ⟨h1, h2, h3⟩ := h
  cases a with
  | tick v faces enc =>
    cases v with
    | false =>
      have hres : step cfg s (Action.tick false faces enc) = (s, []) := by
        simp [step, runDetection]
      rw [hres]
      exact ⟨⟨h1, h2, h3⟩, by simp⟩
    | true =>
      simp only [step, runDetection]
      split
      · rename_i hv
        simp at hv
      · split
        · exact unref_capturePhoto cfg enc _ i ⟨h1, h2, h3⟩
        · exact ⟨⟨h1, h2, h3⟩, by simp⟩
  | apiRespond resp =>
    simp only [step, apiRespondStep]
    split
    · exact ⟨⟨h1, h2, h3⟩, by simp⟩
    · rename_i completer req rest heq
      have hci : completer ≠ i := h2 (completer, req) (heq ▸ List.mem_cons_self _ _)
      have hrest : ∀ p ∈ rest, p.1 ≠ i := by
        intro p hp
        exact h2 p (heq ▸ List.mem_cons_of_mem _ hp)
      split
      · exact ⟨⟨h1, hrest, h3⟩, by simp [Event.id, hci]⟩
      · exact ⟨⟨h1, hrest, h3⟩, by simp [Event.id, hci]⟩
  | armLogin =>
    simp only [step, loginWithFace]
    refine ⟨⟨?_, h2, Nat.lt_succ_of_lt h3⟩, by simp⟩
    intro hc
    have : s.nextId = i := by simpa using hc
    omega
  | armSignup fields =>
    simp only [step, signupWithFace]
    refine ⟨⟨?_, h2, Nat.lt_succ_of_lt h3⟩, by simp⟩
    intro hc
    have : s.nextId = i := by simpa using hc
    omega
  | stopCall v =>
    simp only [step, stop]
    split <;> split <;> split <;> exact ⟨⟨h1, h2, h3⟩, by simp⟩
  | startA v =>
    simp only [step, startBegin]
    split <;> exact ⟨⟨h1, h2, h3⟩, by simp⟩
  | startB env =>
    cases env <;> exact ⟨⟨h1, h2, h3⟩, by simp [step, startFinish]⟩

theorem unref_run (cfg : Config) (acts : List Action) (s : State) (i : Nat)
    (h : Unreferenced s i) :
    Unreferenced (run cfg s acts).1 i ∧
      ∀ e ∈ (run cfg s acts).2, Event.id e ≠ i := by
  induction acts generalizing s with
  | nil => exact ⟨h, by simp [run]⟩
  | cons a rest ih =>
    simp only [run]
    obtain ⟨hs, hev⟩ := unref_step cfg s a i h
    obtain ⟨hs2, hev2⟩ := ih (step cfg s a).1 hs
    refine ⟨hs2, ?_⟩
    intro e he
    simp only [List.mem_append] at he
    cases he with
    | inl h' => exact hev e h'
    | inr h' => exact hev2 e h'

theorem stop_eq (v : Bool) (s : State) :
    stop v s = { s with detectionInterval := false, stream := false,
                        videoSrc := if v then false else s.videoSrc,
                        faceDetected := false } := by
  cases v <;> cases hd : s.detectionInterval <;> cases hst : s.stream <;>
    simp [stop, hd, hst]

/-- C10: when `start()` is invoked while the video render-target
reference is null, the only effect is setting the error channel to
`'Video element reference is not available.'`: no camera request, no
model load, no poll timer, and `isInitializing` is not set to true. -/
theorem claim10_start_null_videoRef (s : State) :
    startBegin false s
      = { s with error := some "Video element reference is not available." } ∧
    (s.isInitializing = false → (startBegin false s).isInitializing = false) ∧
    (startBegin false s).detectionInterval = s.detectionInterval ∧
    (startBegin false s).stream = s.stream ∧
    (startBegin false s).isInitializing = s.isInitializing := by
  refine ⟨by simp [startBegin], ?_, by simp [startBegin], by simp [startBegin],
    by simp [startBegin]⟩
  intro h
  simp [startBegin, h]

theorem claim10_witness :
    initState.isInitializing = false ∧
    (startBegin false initState).isInitializing = false :=
  ⟨by decide, (claim10_start_null_videoRef initState).2.1 (by decide)⟩

/-- C9: `stop()` is idempotent and total — iterated any number of times
(also from the initial, never-started state) it is a pure function that
clears the poll timer, releases the stream, detaches the video source
when the render target is available, resets the face-detected state to
false, and touches nothing else (in particular it raises no error: the
error channel is untouched). -/
theorem claim9_stop_idempotent (v : Bool) (s : State) (n : Nat) :
    stop v (stop v s) = stop v s ∧
    (stop v)^[n + 1] s = stop v s ∧
    (stop v s).faceDetected = false ∧
    (stop v s).detectionInterval = false ∧
    (stop v s).stream = false ∧
    (stop true s).videoSrc = false ∧
    (stop v s).error = s.error ∧
    (stop v s).captureCompleter = s.captureCompleter := by
  have hidem : stop v (stop v s) = stop v s := by
    cases v <;> simp [stop_eq]
  have hiter : (stop v)^[n + 1] s = stop v s := by
    induction n with
    | zero => simp
    | succ m ih =>
      rw [Function.iterate_succ_apply', ih, hidem]
  refine ⟨hidem, hiter, ?_, ?_, ?_, ?_, ?_, ?_⟩ <;> simp [stop_eq]

/-- C8 (amended): on any failure inside `start()` past the null-ref
guard (model load failure or camera failure), `start()` records a
human-readable message in the error channel, does not start the poll
timer or acquire the stream (both are left in their prior state — so
detection remains stopped whenever it was not already running), and the
initializing flag is true for the duration of setup and false once setup
fails. -/
theorem claim8_start_failure_no_timer (s : State) (env : StartEnv)
    (henv : env ≠ StartEnv.ok) :
    (startBegin true s).isInitializing = true ∧
    (startBegin true s).error = none ∧
    (startFinish env (startBegin true s)).isInitializing = false ∧
    (startFinish env (startBegin true s)).error.isSome = true ∧
    (∀ e, env = StartEnv.cameraFail e →
      (startFinish env (startBegin true s)).error
        = some ("Failed to start camera: " ++ e)) ∧
    (∀ e, env = StartEnv.modelLoadFail e →
      (startFinish env (startBegin true s)).error
        = some ("Failed to start camera: " ++ loadModelsErr e)) ∧
    (startFinish env (startBegin true s)).detectionInterval
      = s.detectionInterval ∧
    (startFinish env (startBegin true s)).stream = s.stream := by
  cases env with
  | modelLoadFail e => simp [startBegin, startFinish]
  | cameraFail e => simp [startBegin, startFinish]
  | ok => exact absurd rfl henv

theorem claim8_witness :
    (StartEnv.cameraFail "Permission denied" ≠ StartEnv.ok) ∧
    (startFinish (StartEnv.cameraFail "Permission denied")
        (startBegin true initState)).error
      = some ("Failed to start camera: " ++ "Permission denied") :=
  ⟨by decide,
    (claim8_start_failure_no_timer initState
        (StartEnv.cameraFail "Permission denied") (by decide)).2.2.2.2.1
      "Permission denied" rfl⟩

/-- C8, counterexample to the claim as stated: a failing `start()` does
not always leave the poll timer stopped. After a successful `start()`
(timer registered) a second `start()` whose camera acquisition fails
records the error but leaves the previous poll timer running, because
the failure path never clears `detectionInterval`. -/
theorem claim8_counterexample :
    (run cfg0 initState [Action.startA true, Action.startB StartEnv.ok,
        Action.startA true,
        Action.startB (StartEnv.cameraFail "Permission denied")]).1.error
      = some "Failed to start camera: Permission denied" ∧
    (run cfg0 initState [Action.startA true, Action.startB StartEnv.ok,
        Action.startA true,
        Action.startB (StartEnv.cameraFail "Permission denied")]).1.detectionInterval
      = true := by
  decide

theorem run_append (cfg : Config) (acts1 acts2 : List Action) (s : State) :
    run cfg s (acts1 ++ acts2)
      = ((run cfg (run cfg s acts1).1 acts2).1,
          (run cfg s acts1).2 ++ (run cfg (run cfg s acts1).1 acts2).2) := by
  induction acts1 generalizing s with
  | nil => simp [run]
  | cons a rest ih =>
    simp [run, ih (step cfg s a).1]

theorem arm_step (cfg : Config) (s : State) (a : Action) (ha : a.isArm = true) :
    step cfg s a
      = ({ s with captureMode := a.armMode
                  signupCustomFields := a.armFields
                  captureCompleter := some s.nextId
                  nextId := s.nextId + 1 }, []) := by
  cases a <;>
    simp_all [step, loginWithFace, signupWithFace, Action.isArm, Action.armMode,
      Action.armFields]

theorem run_arm_tick (cfg : Config) (s : State) (a : Action) (ha : a.isArm = true)
    (img : String) (hload : s.isLoading = false) (himg : img ≠ "") :
    run cfg s [a, Action.tick true 1 (some img)]
      = ({ s with captureMode := a.armMode
                  signupCustomFields := a.armFields
                  captureCompleter := none
                  faceDetected := true
                  isLoading := true
                  inFlight := s.inFlight ++ [(s.nextId,
                    if a.armMode = Mode.login then
                      loginWithFaceApi cfg.apiKey cfg.baseURL img
                    else
                      signupWithFaceApi cfg.apiKey cfg.baseURL img a.armFields)]
                  nextId := s.nextId + 1 }, []) := by
  have h1 := arm_step cfg s a ha
  simp only [run]
  rw [h1]
  simp only [step, runDetection, capturePhoto, hload, himg]
  simp

theorem specApiErrorMessage_ne_empty (d : Option String) :
    specApiErrorMessage d ≠ "" := by
  cases d with
  | none => decide
  | some t =>
    by_cases ht : t = ""
    · subst ht
      decide
    · simp [specApiErrorMessage, ht]

theorem run_capture_ok (cfg : Config) (s : State) (a : Action)
    (ha : a.isArm = true) (img : String) (resp : HttpResponse)
    (hload : s.isLoading = false) (hfl : s.inFlight = [])
    (himg : img ≠ "") (hok : resp.ok = true) :
    run cfg s [a, Action.tick true 1 (some img), Action.apiRespond resp]
      = ({ s with captureMode := a.armMode
                  signupCustomFields := a.armFields
                  captureCompleter := none
                  faceDetected := true
                  isLoading := false
                  inFlight := []
                  nextId := s.nextId + 1 },
          [Event.resolve s.nextId resp.result]) := by
  have h1 := arm_step cfg s a ha
  simp only [run]
  rw [h1]
  simp only [step, runDetection, capturePhoto, apiRespondStep, postResult,
    hload, himg, hfl, hok]
  simp

theorem run_capture_err (cfg : Config) (s : State) (a : Action)
    (ha : a.isArm = true) (img : String) (resp : HttpResponse)
    (hload : s.isLoading = false) (hfl : s.inFlight = [])
    (himg : img ≠ "") (hok : resp.ok = false) :
    run cfg s [a, Action.tick true 1 (some img), Action.apiRespond resp]
      = ({ s with captureMode := a.armMode
                  signupCustomFields := a.armFields
                  captureCompleter := none
                  faceDetected := true
                  isLoading := false
                  error := some (specApiErrorMessage resp.detail)
                  inFlight := []
                  nextId := s.nextId + 1 },
          [Event.reject s.nextId (specApiErrorMessage resp.detail)]) := by
  have h1 := arm_step cfg s a ha
  have hne := specApiErrorMessage_ne_empty resp.detail
  have hpr : postResult resp
      = Except.error (specApiErrorMessage resp.detail) := by
    simp [postResult, hok, specApiErrorMessage]
  simp only [run]
  rw [h1]
  simp only [step, runDetection, capturePhoto, apiRespondStep, hpr,
    hload, himg, hfl]
  simp [hne]

/-- C2: with a capture request armed (signup or login), a face reported
present on the next poll tick, and a successful Auth Service response,
the armed caller's promise is resolved with exactly the parsed response
object, unmodified. -/
theorem claim2_success_resolves_verbatim (cfg : Config) (s : State)
    (fields : Option CustomFields) (img : String) (resp : HttpResponse)
    (hload : s.isLoading = false) (hfl : s.inFlight = [])
    (himg : img ≠ "") (hok : resp.ok = true) :
    (run cfg s [Action.armSignup fields, Action.tick true 1 (some img),
        Action.apiRespond resp]).2
      = [Event.resolve s.nextId resp.result] ∧
    (run cfg s [Action.armLogin, Action.tick true 1 (some img),
        Action.apiRespond resp]).2
      = [Event.resolve s.nextId resp.result] :=
  ⟨congrArg Prod.snd
      (run_capture_ok cfg s (Action.armSignup fields) rfl img resp hload hfl
        himg hok),
    congrArg Prod.snd
      (run_capture_ok cfg s Action.armLogin rfl img resp hload hfl himg hok)⟩

theorem claim2_witness :
    (initState.isLoading = false ∧ initState.inFlight = [] ∧
      ("abc" : String) ≠ "" ∧ respOk.ok = true) ∧
    ((run cfg0 initState [Action.armSignup (some [("plan", "pro")]),
        Action.tick true 1 (some "abc"), Action.apiRespond respOk]).2
      = [Event.resolve initState.nextId respOk.result] ∧
    (run cfg0 initState [Action.armLogin, Action.tick true 1 (some "abc"),
        Action.apiRespond respOk]).2
      = [Event.resolve initState.nextId respOk.result]) :=
  ⟨⟨rfl, rfl, by decide, rfl⟩,
    claim2_success_resolves_verbatim cfg0 initState (some [("plan", "pro")])
      "abc" respOk rfl rfl (by decide) rfl⟩

/-- C3 (amended): for every non-2xx Auth Service response, the armed
caller's promise is rejected with the message given by the body's
`detail` field when present and non-empty (truthy), else the generic
`'An unknown API error occurred.'`; and the shared error channel is set
to that same string. (As literally stated — "the `detail` field if
present" — the claim fails when `detail` is present but empty; see the
counterexample.) -/
theorem claim3_api_error_rejects (cfg : Config) (s : State) (img : String)
    (resp : HttpResponse) (hload : s.isLoading = false) (hfl : s.inFlight = [])
    (himg : img ≠ "") (hok : resp.ok = false) :
    (run cfg s [Action.armLogin, Action.tick true 1 (some img),
        Action.apiRespond resp]).2
      = [Event.reject s.nextId (specApiErrorMessage resp.detail)] ∧
    (run cfg s [Action.armLogin, Action.tick true 1 (some img),
        Action.apiRespond resp]).1.error
      = some (specApiErrorMessage resp.detail) := by
  have h := run_capture_err cfg s Action.armLogin rfl img resp hload hfl
    himg hok
  exact ⟨congrArg Prod.snd h, congrArg (fun p => p.1.error) h⟩

theorem claim3_witness :
    (initState.isLoading = false ∧ initState.inFlight = [] ∧
      ("abc" : String) ≠ "" ∧ resp400.ok = false) ∧
    ((run cfg0 initState [Action.armLogin, Action.tick true 1 (some "abc"),
        Action.apiRespond resp400]).2
      = [Event.reject initState.nextId (specApiErrorMessage resp400.detail)] ∧
    (run cfg0 initState [Action.armLogin, Action.tick true 1 (some "abc"),
        Action.apiRespond resp400]).1.error
      = some (specApiErrorMessage resp400.detail)) :=
  ⟨⟨rfl, rfl, by decide, rfl⟩,
    claim3_api_error_rejects cfg0 initState "abc" resp400 rfl rfl
      (by decide) rfl⟩

/-- C3, counterexample to the claim as stated: with an HTTP 400 body
whose `detail` field is present but equal to the empty string, the
claim's rule ("the `detail` field if present") demands the message `""`,
but the code's `responseData.detail || '...'` falls through on the falsy
value and both the rejection message and the error channel carry the
generic `'An unknown API error occurred.'` instead. -/
theorem claim3_counterexample :
    resp400empty.detail = some "" ∧
    (run cfg0 initState [Action.armLogin, Action.tick true 1 (some "img"),
        Action.apiRespond resp400empty]).2
      = [Event.reject 0 "An unknown API error occurred."] ∧
    (run cfg0 initState [Action.armLogin, Action.tick true 1 (some "img"),
        Action.apiRespond resp400empty]).1.error
      = some "An unknown API error occurred." ∧
    "An unknown API error occurred." ≠ "" := by
  decide

theorem capturePhoto_clears (cfg : Config) (enc : Option String) (s : State)
    (c : Nat) (hc : s.captureCompleter = some c) :
    (capturePhoto cfg true enc s).1.captureCompleter = none := by
  cases enc with
  | none => simp [capturePhoto, hc]
  | some img => by_cases him : img = "" <;> simp [capturePhoto, hc, him]

/-- C4: a poll tick (with the video ref available) triggers
capture-and-send exactly when a capture request is armed, a face is
present, and `isLoading` is false — firing is observable as the armed
completer being consumed. A tick with no face present sets
`faceDetected` to false, leaves the armed request in place, starts no
send and settles nothing. -/
theorem claim4_tick_trigger_condition (cfg : Config) (s : State) (faces : Nat)
    (enc : Option String) :
    ((s.captureCompleter.isSome = true ∧ 0 < faces ∧ s.isLoading = false) ↔
      (s.captureCompleter.isSome = true ∧
        (runDetection cfg true faces enc s).1.captureCompleter = none)) ∧
    (faces = 0 →
      (runDetection cfg true faces enc s).1.faceDetected = false ∧
      (runDetection cfg true faces enc s).1.captureCompleter
        = s.captureCompleter ∧
      (runDetection cfg true faces enc s).1.inFlight = s.inFlight ∧
      (runDetection cfg true faces enc s).2 = []) := by
  constructor
  · constructor
    · rintro ⟨hsome, hf, hl⟩
      obtain ⟨c, hc⟩ := Option.isSome_iff_exists.mp hsome
      refine ⟨hsome, ?_⟩
      have hred : runDetection cfg true faces enc s
          = capturePhoto cfg true enc
              { s with faceDetected := decide (0 < faces) } := by
        simp only [runDetection]
        rw [if_neg (by simp)]
        rw [if_pos (by simp [hc, hf, hl])]
      rw [hred]
      exact capturePhoto_clears cfg enc _ c hc
    · rintro ⟨hsome, hnone⟩
      obtain ⟨c, hc⟩ := Option.isSome_iff_exists.mp hsome
      refine ⟨hsome, ?_, ?_⟩
      · by_contra hf
        have hf0 : faces = 0 := by omega
        subst hf0
        have hres : runDetection cfg true 0 enc s
            = ({ s with faceDetected := false }, []) := by
          simp [runDetection]
        rw [hres] at hnone
        simp [hc] at hnone
      · by_cases hl : s.isLoading = true
        · exfalso
          have hres : runDetection cfg true faces enc s
              = ({ s with faceDetected := decide (0 < faces) }, []) := by
            simp [runDetection, hl]
          rw [hres] at hnone
          simp [hc] at hnone
        · simpa using hl
  · intro hf0
    subst hf0
    have hres : runDetection cfg true 0 enc s
        = ({ s with faceDetected := false }, []) := by
      simp [runDetection]
    rw [hres]
    exact ⟨rfl, rfl, rfl, rfl⟩

theorem claim4_witness :
    ((0 : Nat) = 0) ∧
    ((runDetection cfg0 true 0 (some "x")
        (loginWithFace initState).1).1.faceDetected = false ∧
      (runDetection cfg0 true 0 (some "x")
          (loginWithFace initState).1).1.captureCompleter
        = (loginWithFace initState).1.captureCompleter ∧
      (runDetection cfg0 true 0 (some "x")
          (loginWithFace initState).1).1.inFlight
        = (loginWithFace initState).1.inFlight ∧
      (runDetection cfg0 true 0 (some "x") (loginWithFace initState).1).2
        = []) :=
  ⟨rfl, (claim4_tick_trigger_condition cfg0 (loginWithFace initState).1 0
      (some "x")).2 rfl⟩

/-- C1: along every reachable execution, at most one capture-and-send is
in flight at a time — the armed completer is consumed synchronously
before the send starts, so a poll tick arriving while a send is
outstanding starts no second send and settles nothing, though it still
updates the face-detected state. -/
theorem claim1_at_most_one_send (cfg : Config) (acts : List Action)
    (faces : Nat) (enc : Option String)
    (hin : (run cfg initState acts).1.inFlight ≠ []) :
    (run cfg initState acts).1.inFlight.length ≤ 1 ∧
    (runDetection cfg true faces enc (run cfg initState acts).1).1.inFlight
      = (run cfg initState acts).1.inFlight ∧
    (runDetection cfg true faces enc (run cfg initState acts).1).2 = [] ∧
    (runDetection cfg true faces enc
        (run cfg initState acts).1).1.faceDetected = decide (0 < faces) ∧
    (runDetection cfg true faces enc
        (run cfg initState acts).1).1.captureCompleter
      = (run cfg initState acts).1.captureCompleter := by
  obtain ⟨h1, h2, h3, h4⟩ := inv_run cfg acts initState inv_init
  have hload : (run cfg initState acts).1.isLoading = true := by
    rw [h1]
    cases hfl : (run cfg initState acts).1.inFlight with
    | nil => exact absurd hfl hin
    | cons p l => simp
  have hres : runDetection cfg true faces enc (run cfg initState acts).1
      = ({ (run cfg initState acts).1 with
            faceDetected := decide (0 < faces) }, []) := by
    simp [runDetection, hload]
  rw [hres]
  exact ⟨h2, rfl, rfl, rfl, rfl⟩

theorem claim1_witness :
    (run cfg0 initState [Action.armLogin,
        Action.tick true 1 (some "a")]).1.inFlight ≠ [] ∧
    (run cfg0 initState [Action.armLogin,
        Action.tick true 1 (some "a")]).1.inFlight.length ≤ 1 :=
  ⟨by decide,
    (claim1_at_most_one_send cfg0 [Action.armLogin,
        Action.tick true 1 (some "a")] 1 (some "b") (by decide)).1⟩

/-- C7: every execution of capture-and-send clears the busy flag in its
final step — whether the send resolves or rejects (the `finally` after
the API response) or the capture rejects synchronously on an encoding
failure — and after a completed send a newly armed request triggers a
fresh capture on the next qualifying tick. -/
theorem claim7_busy_flag_cleared (cfg : Config) (acts : List Action)
    (resp : HttpResponse) (img : String) (s2 : State) (faces : Nat)
    (hfl : (run cfg initState acts).1.inFlight ≠ []) (himg : img ≠ "")
    (hsome : s2.captureCompleter.isSome = true) (hload2 : s2.isLoading = false)
    (hface : 0 < faces) :
    (apiRespondStep resp (run cfg initState acts).1).1.isLoading = false ∧
    ((runDetection cfg true faces none s2).1.isLoading = false ∧
      (runDetection cfg true faces none s2).2 ≠ []) ∧
    (run cfg (apiRespondStep resp (run cfg initState acts).1).1
        [Action.armLogin, Action.tick true 1 (some img)]).1.inFlight ≠ [] := by
  have hclear : (apiRespondStep resp (run cfg initState acts).1).1.isLoading
      = false := by
    cases hifl : (run cfg initState acts).1.inFlight with
    | nil => exact absurd hifl hfl
    | cons p rest =>
      cases hp : postResult resp with
      | ok r => simp [apiRespondStep, hifl, hp]
      | error m => simp [apiRespondStep, hifl, hp]
  refine ⟨hclear, ?_, ?_⟩
  · obtain ⟨c, hc⟩ := Option.isSome_iff_exists.mp hsome
    constructor
    · simp [runDetection, capturePhoto, hc, hface, hload2]
    · simp [runDetection, capturePhoto, hc, hface, hload2]
  · have hat := run_arm_tick cfg
      (apiRespondStep resp (run cfg initState acts).1).1 Action.armLogin rfl
      img hclear himg
    rw [hat]
    simp

theorem claim7_witness :
    (run cfg0 initState [Action.armLogin,
        Action.tick true 1 (some "a")]).1.inFlight ≠ [] ∧
    (apiRespondStep respOk (run cfg0 initState [Action.armLogin,
        Action.tick true 1 (some "a")]).1).1.isLoading = false :=
  ⟨by decide,
    (claim7_busy_flag_cleared cfg0 [Action.armLogin,
        Action.tick true 1 (some "a")] respOk "b" (loginWithFace initState).1 1
        (by decide) (by decide) rfl rfl (by decide)).1⟩

/-- C5: arming a second capture request before any capture has fired
replaces the first — the armed completer, mode and custom fields are the
second caller's — the two arming calls settle nothing, and the first
caller's promise is never settled (neither resolved nor rejected) by any
continuation of the execution. -/
theorem claim5_rearm_replaces (cfg : Config) (acts0 : List Action)
    (a1 a2 : Action) (acts : List Action)
    (h1 : a1.isArm = true) (h2 : a2.isArm = true) :
    (run cfg (run cfg initState acts0).1 [a1, a2]).1.captureCompleter
      = some ((run cfg initState acts0).1.nextId + 1) ∧
    (run cfg (run cfg initState acts0).1 [a1, a2]).1.captureMode
      = a2.armMode ∧
    (run cfg (run cfg initState acts0).1 [a1, a2]).1.signupCustomFields
      = a2.armFields ∧
    (run cfg (run cfg initState acts0).1 [a1, a2]).2 = [] ∧
    (run cfg initState acts0).1.nextId
      ∉ (run cfg (run cfg (run cfg initState acts0).1 [a1, a2]).1 acts).2.map
          Event.id := by
  obtain ⟨hi1, hi2, hi3, hi4⟩ := inv_run cfg acts0 initState inv_init
  have hrun2 : run cfg (run cfg initState acts0).1 [a1, a2]
      = ({ (run cfg initState acts0).1 with
            captureMode := a2.armMode
            signupCustomFields := a2.armFields
            captureCompleter := some ((run cfg initState acts0).1.nextId + 1)
            nextId := (run cfg initState acts0).1.nextId + 1 + 1 }, []) := by
    have e1 := arm_step cfg (run cfg initState acts0).1 a1 h1
    have e2 := arm_step cfg
      ({ (run cfg initState acts0).1 with
          captureMode := a1.armMode
          signupCustomFields := a1.armFields
          captureCompleter := some (run cfg initState acts0).1.nextId
          nextId := (run cfg initState acts0).1.nextId + 1 }) a2 h2
    simp only [run]
    rw [e1]
    simp only []
    rw [show step cfg
        ({ (run cfg initState acts0).1 with
            captureMode := a1.armMode
            signupCustomFields := a1.armFields
            captureCompleter := some (run cfg initState acts0).1.nextId
            nextId := (run cfg initState acts0).1.nextId + 1 }, ([] : List Event)).1 a2
      = _ from e2]
    simp
  rw [hrun2]
  refine ⟨rfl, rfl, rfl, rfl, ?_⟩
  have hunref : Unreferenced
      ({ (run cfg initState acts0).1 with
          captureMode := a2.armMode
          signupCustomFields := a2.armFields
          captureCompleter := some ((run cfg initState acts0).1.nextId + 1)
          nextId := (run cfg initState acts0).1.nextId + 1 + 1 })
      (run cfg initState acts0).1.nextId := by
    refine ⟨?_, ?_, ?_⟩
    · intro hcon
      simp only [Option.some.injEq] at hcon
      omega
    · intro p hp
      exact Nat.ne_of_lt (hi3 p hp)
    · exact Nat.lt_succ_of_lt (Nat.lt_succ_self _)
  have hnever := unref_run cfg acts _ _ hunref
  intro hmem
  obtain ⟨e, hein, heid⟩ := List.mem_map.mp hmem
  exact hnever.2 e hein heid

theorem claim5_witness :
    (Action.armLogin.isArm = true ∧
      (Action.armSignup (some [("a", "b")])).isArm = true) ∧
    (run cfg0 (run cfg0 initState []).1
        [Action.armLogin, Action.armSignup (some [("a", "b")])]).1.captureCompleter
      = some ((run cfg0 initState []).1.nextId + 1) :=
  ⟨⟨rfl, rfl⟩,
    (claim5_rearm_replaces cfg0 [] Action.armLogin
        (Action.armSignup (some [("a", "b")]))
        [Action.tick true 1 (some "x"), Action.apiRespond respOk]
        rfl rfl).1⟩

theorem sentReqs_capturePhoto (cfg : Config) (enc : Option String) (s : State)
    (h : SentReqs cfg s) : SentReqs cfg (capturePhoto cfg true enc s).1 := by
  cases hcc : s.captureCompleter with
  | none =>
    have hres : capturePhoto cfg true enc s = (s, []) := by
      simp [capturePhoto, hcc]
    rw [hres]
    exact h
  | some c =>
    cases enc with
    | none =>
      have hres : (capturePhoto cfg true none s).1.inFlight = s.inFlight := by
        simp [capturePhoto, hcc]
      intro p hp
      rw [hres] at hp
      exact h p hp
    | some img =>
      by_cases him : img = ""
      · have hres : (capturePhoto cfg true (some img) s).1.inFlight
            = s.inFlight := by
          simp [capturePhoto, hcc, him]
        intro p hp
        rw [hres] at hp
        exact h p hp
      · have hres : (capturePhoto cfg true (some img) s).1.inFlight
            = s.inFlight ++ [(c,
                if s.captureMode = Mode.login then
                  loginWithFaceApi cfg.apiKey cfg.baseURL img
                else
                  signupWithFaceApi cfg.apiKey cfg.baseURL img
                    s.signupCustomFields)] := by
          simp [capturePhoto, hcc, him]
        intro p hp
        rw [hres] at hp
        simp only [List.mem_append, List.mem_singleton] at hp
        cases hp with
        | inl hp' => exact h p hp'
        | inr hp' =>
          subst hp'
          by_cases hm : s.captureMode = Mode.login
          · exact ⟨img, Or.inl (by simp [hm])⟩
          · exact ⟨img, Or.inr ⟨s.signupCustomFields, by simp [hm]⟩⟩

theorem sentReqs_step (cfg : Config) (s : State) (a : Action)
    (h : SentReqs cfg s) : SentReqs cfg (step cfg s a).1 := by
  cases a with
  | tick v faces enc =>
    cases v with
    | false =>
      have hres : step cfg s (Action.tick false faces enc) = (s, []) := by
        simp [step, runDetection]
      rw [hres]
      exact h
    | true =>
      simp only [step, runDetection]
      split
      · rename_i hv
        simp at hv
      · split
        · exact sentReqs_capturePhoto cfg enc _ h
        · exact h
  | apiRespond resp =>
    simp only [step, apiRespondStep]
    split
    · exact h
    · rename_i c req rest heq
      split
      · intro p hp
        exact h p (heq ▸ List.mem_cons_of_mem _ hp)
      · intro p hp
        exact h p (heq ▸ List.mem_cons_of_mem _ hp)
  | armLogin => exact h
  | armSignup fields => exact h
  | stopCall v =>
    simp only [step, stop]
    split <;> split <;> split <;> exact h
  | startA v =>
    simp only [step, startBegin]
    split <;> exact h
  | startB env => cases env <;> exact h

theorem sentReqs_run (cfg : Config) (acts : List Action) (s : State)
    (h : SentReqs cfg s) : SentReqs cfg (run cfg s acts).1 := by
  induction acts generalizing s with
  | nil => exact h
  | cons a rest ih =>
    simp only [run]
    exact ih (step cfg s a).1 (sentReqs_step cfg s a h)

/-- C6: every send the coordinator makes is a `POST` to
`{baseURL}/auth/login-face` when the armed capture mode is login and to
`{baseURL}/auth/signup-face` when it is signup, carrying the configured
`X-API-KEY` and the JSON body `{ image_base64 }`; the signup request's
body contains `custom_fields` equal to the armed fields — present
exactly when fields were provided with the request (`loginWithFace` arms
mode login and clears the fields, `signupWithFace f` arms mode signup
with fields `f`); and along every execution every in-flight send is one
of these two request builds. -/
theorem claim6_request_shape (cfg : Config) (s : State) (c : Nat)
    (faces : Nat) (img : String) (f : Option CustomFields)
    (acts : List Action)
    (hc : s.captureCompleter = some c) (hface : 0 < faces)
    (hload : s.isLoading = false) (himg : img ≠ "") :
    (∃ r : Request,
      (runDetection cfg true faces (some img) s).1.inFlight
        = s.inFlight ++ [(c, r)] ∧
      r.method = "POST" ∧
      r.contentType = "application/json" ∧
      r.xApiKey = cfg.apiKey ∧
      r.body.image_base64 = img ∧
      (s.captureMode = Mode.login →
        r = loginWithFaceApi cfg.apiKey cfg.baseURL img ∧
        r.url = cfg.baseURL ++ "/auth/login-face" ∧
        r.body.custom_fields = none) ∧
      (s.captureMode = Mode.signup →
        r = signupWithFaceApi cfg.apiKey cfg.baseURL img
              s.signupCustomFields ∧
        r.url = cfg.baseURL ++ "/auth/signup-face" ∧
        r.body.custom_fields = s.signupCustomFields ∧
        (r.body.custom_fields ≠ none ↔ s.signupCustomFields ≠ none))) ∧
    (loginWithFace s).1.captureMode = Mode.login ∧
    (loginWithFace s).1.signupCustomFields = none ∧
    (signupWithFace f s).1.captureMode = Mode.signup ∧
    (signupWithFace f s).1.signupCustomFields = f ∧
    SentReqs cfg (run cfg initState acts).1 := by
  have hred : runDetection cfg true faces (some img) s
      = capturePhoto cfg true (some img)
          { s with faceDetected := decide (0 < faces) } := by
    simp only [runDetection]
    rw [if_neg (by simp)]
    rw [if_pos (by simp [hc, hface, hload])]
  have hcap : (capturePhoto cfg true (some img)
        { s with faceDetected := decide (0 < faces) }).1.inFlight
      = s.inFlight ++ [(c,
          if s.captureMode = Mode.login then
            loginWithFaceApi cfg.apiKey cfg.baseURL img
          else
            signupWithFaceApi cfg.apiKey cfg.baseURL img
              s.signupCustomFields)] := by
    simp [capturePhoto, hc, himg]
  refine ⟨⟨if s.captureMode = Mode.login then
        loginWithFaceApi cfg.apiKey cfg.baseURL img
      else
        signupWithFaceApi cfg.apiKey cfg.baseURL img s.signupCustomFields,
      ?_, ?_, ?_, ?_, ?_, ?_, ?_⟩, rfl, rfl, rfl, rfl, ?_⟩
  · rw [hred]
    exact hcap
  · by_cases hm : s.captureMode = Mode.login <;>
      simp [hm, loginWithFaceApi, signupWithFaceApi, post]
  · by_cases hm : s.captureMode = Mode.login <;>
      simp [hm, loginWithFaceApi, signupWithFaceApi, post]
  · by_cases hm : s.captureMode = Mode.login <;>
      simp [hm, loginWithFaceApi, signupWithFaceApi, post]
  · by_cases hm : s.captureMode = Mode.login <;>
      simp [hm, loginWithFaceApi, signupWithFaceApi, post]
  · intro hm
    rw [if_pos hm]
    exact ⟨rfl, rfl, rfl⟩
  · intro hm
    rw [if_neg (by simp [hm])]
    refine ⟨rfl, rfl, ?_, ?_⟩
    · cases s.signupCustomFields <;> rfl
    · cases s.signupCustomFields <;> simp [signupWithFaceApi, post]
  · refine sentReqs_run cfg acts initState ?_
    intro p hp
    simp [initState] at hp

theorem claim6_witness :
    ((signupWithFace (some [("k", "v")]) initState).1.captureCompleter
      = some 0 ∧ 0 < 1 ∧
      (signupWithFace (some [("k", "v")]) initState).1.isLoading = false ∧
      ("abc" : String) ≠ "") ∧
    (loginWithFace
        (signupWithFace (some [("k", "v")]) initState).1).1.captureMode
      = Mode.login :=
  ⟨⟨rfl, by decide, rfl, by decide⟩,
    (claim6_request_shape cfg0 (signupWithFace (some [("k", "v")]) initState).1
        0 1 "abc" (some [("a", "b")]) [] rfl (by decide) rfl
        (by decide)).2.1⟩

end BioLogreen
